import Mathlib

/-!
Verification of the event-hub client data path and the partition pump
lifecycle, shallowly embedded from the Python sources
`azure/eventhub/__init__.py` and
`azure/eventprocessorhost/partition_pump.py`.

Python exceptions are modelled with `Except PyErr`; `None` values with
`Option`; Python dictionaries of message annotations with association
lists looked up by key.  Each method of the source becomes a Lean
function from the receiver object's state (plus the external inputs the
method consumes) to the updated state, a trace of the externally visible
calls it makes, and its outcome (normal return or raised exception).
-/

namespace EventHubs

/-- Errors a modelled Python call can raise: `user n` stands for an
arbitrary exception raised by user-supplied processor code,
`noneAttribute` for the `AttributeError` obtained by accessing an
attribute of `None`, and `nameError s` for a `NameError` on the
undefined global `s`. -/
inductive PyErr : Type
  | user (n : Nat)
  | noneAttribute
  | nameError (s : String)
deriving DecidableEq, Repr

/-- Values stored in AMQP message annotations and application
properties. -/
inductive AnnValue : Type
  | int (i : Int)
  | bytes (s : String)
  | str (s : String)
deriving DecidableEq, Repr

/-- A Python dictionary with string (bytes) keys, as an association
list. -/
abbrev AnnMap : Type := List (String × AnnValue)

/-- `d.get(k, None)` on a Python dictionary. -/
def AnnMap.get (m : AnnMap) (k : String) : Option AnnValue :=
  match m.find? (fun p => p.1 == k) with
  | some p => some p.2
  | none => none

/-- A transport (`uamqp`) message: the fields of it that
`azure/eventhub/__init__.py` reads. -/
structure Message : Type where
  message_annotations : AnnMap
  application_properties : AnnMap
deriving DecidableEq, Repr

/-- `EventData.PROP_SEQ_NUMBER = b"x-opt-sequence-number"`. -/
def PROP_SEQ_NUMBER : String := "x-opt-sequence-number"

/-- `EventData.PROP_OFFSET = b"x-opt-offset"`. -/
def PROP_OFFSET : String := "x-opt-offset"

/-- `EventData.PROP_PARTITION_KEY = b"x-opt-partition-key"`. -/
def PROP_PARTITION_KEY : String := "x-opt-partition-key"

/-- `EventData`: wrapper around a transport message, keeping the
message together with its annotation and application-property
dictionaries (`_annotations`, `_properties`). -/
structure EventData : Type where
  message : Message
  annotations : AnnMap
  properties : AnnMap
deriving DecidableEq, Repr

namespace EventData

/-- `EventData.create(message)`: wraps a received transport message,
copying `message.message_annotations` into `_annotations` and
`message.application_properties` into `_properties`. -/
def create (message : Message) : EventData :=
  { message := message
    annotations := message.message_annotations
    properties := message.application_properties }

/-- The `sequence_number` property:
`self._annotations.get(EventData.PROP_SEQ_NUMBER, None)`. -/
def sequence_number (e : EventData) : Option AnnValue :=
  e.annotations.get PROP_SEQ_NUMBER

/-- The `offset` property:
`self._annotations.get(EventData.PROP_OFFSET, None)`. -/
def offset (e : EventData) : Option AnnValue :=
  e.annotations.get PROP_OFFSET

/-- The `partition_key` property:
`self._annotations.get(EventData.PROP_PARTITION_KEY, None)`. -/
def partition_key (e : EventData) : Option AnnValue :=
  e.annotations.get PROP_PARTITION_KEY

end EventData

/-- The value held by an `Offset` object: a `datetime.datetime`, an
`int`, or any other value (a string) as the three `isinstance` branches
of `Offset.selector` distinguish them.  A datetime is represented by
its components only as far as needed: the selector raises before using
them (see `Offset.selector`). -/
inductive OffsetValue : Type
  | dt (secondsSinceEpoch : Int)
  | int (i : Int)
  | str (s : String)
deriving DecidableEq, Repr

/-- The `Offset` value object: `self.value = value`,
`self.inclusive = inclusive`. -/
structure Offset : Type where
  value : OffsetValue
  inclusive : Bool
deriving DecidableEq, Repr

/-- `Offset.selector()`.  The `datetime` branch evaluates the call
`timestamp(...)`, but the name `timestamp` is bound nowhere in the
module, so Python raises `NameError` before any arithmetic (the callee
of a call is evaluated before its arguments).  The `int` branch renders
the enqueued-time filter from the integer value; every other value
renders the offset filter with `>=` when `inclusive` else `>`. -/
def Offset.selector (o : Offset) : Except PyErr String :=
  match o.value with
  | .dt _ => .error (.nameError "timestamp")
  | .int i =>
      .ok ("amqp.annotation.x-opt-enqueued-time > '" ++ toString i ++ "'")
  | .str s =>
      let operator := if o.inclusive then ">=" else ">"
      .ok ("amqp.annotation.x-opt-offset " ++ operator ++ " '" ++ s ++ "'")

/-- `uamqp.constants.MessageSendResult`: the delivery outcomes the
transport can report. -/
inductive MessageSendResult : Type
  | Ok
  | Error
  | Timeout
  | Cancelled
deriving DecidableEq, Repr

/-- `EventHubError(outcome, condition)`: the structured error raised by
`Sender.send`, carrying the constructor arguments it was given. -/
structure EventHubError : Type where
  outcome : Option MessageSendResult
  condition : Option String
deriving DecidableEq, Repr

/-- The mutable fields of a `Sender`: the pending-outcome slot
`self._outcome` / `self._condition` written by the completion hook
(both start as `None`). -/
structure SenderState : Type where
  outcome : Option MessageSendResult
  condition : Option String
deriving DecidableEq, Repr

namespace Sender

/-- `Sender._on_outcome(outcome, condition)`: stores the reported
delivery outcome and condition in the pending slot. -/
def on_outcome (s : SenderState) (outcome : MessageSendResult)
    (condition : Option String) : SenderState :=
  { s with outcome := some outcome, condition := condition }

/-- `Sender._error(outcome, condition)`: `None` when the outcome is
`Ok`, else `EventHubError(outcome, condition)`.  `Sender.send` reads
the slot `self._outcome`, which is `Optional`, so the argument is an
`Option`. -/
def error (outcome : Option MessageSendResult) (condition : Option String) :
    Option EventHubError :=
  if outcome = some MessageSendResult.Ok then none
  else some { outcome := outcome, condition := condition }

/-- `Sender.send(event_data)`: installs `self._on_outcome` as the
message's completion hook and blocks in `send_message` until the
transport reports a delivery outcome through that hook; the reported
`(outcome, condition)` pair is this model's input.  After the blocking
call returns, the slot is compared against `Ok` and
`Sender._error(...)` is raised when it differs (the raised object is
exactly what `_error` returned). -/
def send (s : SenderState) (outcome : MessageSendResult)
    (condition : Option String) : SenderState × Except (Option EventHubError) Unit :=
  let s1 := on_outcome s outcome condition
  if s1.outcome ≠ some MessageSendResult.Ok then
    (s1, .error (error s1.outcome s1.condition))
  else
    (s1, .ok ())

end Sender

/-- The mutable fields of a `Receiver` that `on_message` touches:
`self.offset`, `self.delivered`, and whether `receive` installed a
user callback in `self._callback`. -/
structure ReceiverState : Type where
  offset : Option AnnValue
  delivered : Nat
  has_callback : Bool
deriving DecidableEq, Repr

namespace Receiver

/-- `Receiver.on_message(event)`: increments `self.delivered`, wraps
the message via `EventData.create`, invokes the user callback on the
wrapped event when one was supplied, stores the wrapped event's
`offset` property into `self.offset`, and returns the wrapped event
(which the `receive` generator then yields).  The second component
collects the arguments of the callback invocations made during the
call. -/
def on_message (r : ReceiverState) (event : Message) :
    ReceiverState × EventData × List EventData :=
  let r1 := { r with delivered := r.delivered + 1 }
  let event_data := EventData.create event
  let calls := if r1.has_callback then [event_data] else []
  let r2 := { r1 with offset := event_data.offset }
  (r2, event_data, calls)

end Receiver

/-- A partition lease, held by the pump (`self.lease`); the pump reads
its `partition_id` and hands the whole lease to the storage manager on
lease-loss shutdown. -/
structure Lease : Type where
  partition_id : String
  epoch : Int
deriving DecidableEq, Repr

/-- The per-partition cursor (`azure.eventprocessorhost.partition_context.PartitionContext`):
partition id, lease reference, and the tracked offset / sequence
number. -/
structure PartitionContext : Type where
  partition_id : String
  lease : Lease
  offset : Option AnnValue
  sequence_number : Option AnnValue
deriving DecidableEq, Repr

/-- Modelled from the spec: `partition_context.py` is not among the
sources, only its caller `partition_pump.py` is.  Per §4.5
"`set_offset_and_sequence_number(event)` is the sole mutator" of the
cursor and §8 "the context's offset after processing equals the offset
annotation of B's last element": the context's offset and sequence
number are overwritten with the event's `offset` and `sequence_number`
properties. -/
def PartitionContext.set_offset_and_sequence_number
    (ctx : PartitionContext) (event : EventData) : PartitionContext :=
  { ctx with
    offset := event.offset
    sequence_number := event.sequence_number }

/-- The pluggable processor capability (`self.processor`): the four
user-supplied hooks, each of which may raise.  Each hook receives the
pump's `self.partition_context`, which Python would pass along even if
it were still `None`. -/
structure EventProcessor : Type where
  open_async : Option PartitionContext → Except PyErr Unit
  process_events_async :
    Option PartitionContext → List (Option EventData) → Except PyErr Unit
  process_error_async : Option PartitionContext → PyErr → Except PyErr Unit
  close_async : Option PartitionContext → String → Except PyErr Unit

/-- Externally visible calls a pump method makes, in order: processor
hook invocations (with the arguments passed), the subclass
`on_open_async` / `on_closing_async` hooks, the storage manager's
`release_lease_async`, and the context-cursor update. -/
inductive TraceEv : Type
  | procOpen (ctx : Option PartitionContext)
  | procProcessEvents (ctx : Option PartitionContext) (events : List (Option EventData))
  | procError (e : PyErr)
  | procClose (ctx : Option PartitionContext) (reason : String)
  | onOpenHook
  | onClosingHook (reason : String)
  | releaseLease (lease : Lease)
  | setOffsetAndSeq (e : EventData)
deriving DecidableEq, Repr

/-- The mutable fields of a `PartitionPump`: `self.lease`,
`self.pump_status` (a status string, starting as `"Uninitialized"`),
`self.partition_context` and `self.processor` (both `None` until
`open_async` installs them). -/
structure PumpState : Type where
  lease : Lease
  pump_status : String
  partition_context : Option PartitionContext
  processor : Option EventProcessor

/-- The pump's environment: the processor class the host instantiates
in `open_async` (`self.host.event_processor(...)`), the abstract
subclass hooks `on_open_async` / `on_closing_async`, and the storage
manager's `release_lease_async`.  All of them may raise. -/
structure PumpEnv : Type where
  event_processor : EventProcessor
  on_open_async : Except PyErr Unit
  on_closing_async : String → Except PyErr Unit
  release_lease_async : Lease → Except PyErr Unit

namespace PartitionPump

/-- `PartitionPump.set_pump_status(status)`: updates `self.pump_status`
(and logs, which the model omits). -/
def set_pump_status (p : PumpState) (status : String) : PumpState :=
  { p with pump_status := status }

/-- `PartitionPump.process_error_async(error)`: calls
`self.processor.process_error_async(self.partition_context, error)`.
When `self.processor` is `None` the attribute access itself raises
`AttributeError`.  Returns the trace of hook invocations and the
call's outcome; the pump state is not modified. -/
def process_error_async (p : PumpState) (error : PyErr) :
    List TraceEv × Except PyErr Unit :=
  match p.processor with
  | none => ([], .error .noneAttribute)
  | some proc =>
      ([.procError error], proc.process_error_async p.partition_context error)

/-- The `PartitionContext` that `open_async` constructs and binds to
the current lease (`partition_context.py` initialises the cursor
fields to `None`; modelled from the spec §3, the file being absent
from the sources). -/
def freshContext (lease : Lease) : PartitionContext :=
  { partition_id := lease.partition_id
    lease := lease
    offset := none
    sequence_number := none }

/-- `PartitionPump.open_async()`: sets status `"Opening"`, constructs
the context and the processor, and calls the processor's `open_async`
hook.  If that hook raises: the error is passed to
`process_error_async` (whose own failure propagates), the processor
reference is nulled out, and status becomes `"OpenFailed"`.  The
subclass `on_open_async` hook then runs only if the status is still
`"Opening"`. -/
def open_async (env : PumpEnv) (p : PumpState) :
    PumpState × List TraceEv × Except PyErr Unit :=
  let p := set_pump_status p "Opening"
  let ctx := freshContext p.lease
  let p := { p with
    partition_context := some ctx
    processor := some env.event_processor }
  match env.event_processor.open_async (some ctx) with
  | .ok _ =>
      match env.on_open_async with
      | .ok _ => (p, [.procOpen (some ctx), .onOpenHook], .ok ())
      | .error e => (p, [.procOpen (some ctx), .onOpenHook], .error e)
  | .error err =>
      let pe := process_error_async p err
      match pe.2 with
      | .ok _ =>
          (set_pump_status { p with processor := none } "OpenFailed",
            .procOpen (some ctx) :: pe.1, .ok ())
      | .error e2 => (p, .procOpen (some ctx) :: pe.1, .error e2)

/-- The `except` handler of `PartitionPump.close_async`: forwards the
caught exception to `process_error_async` (whose own failure
propagates in place of the original), logs reading
`self.partition_context.partition_id` (an `AttributeError` when the
context is `None`), and re-raises the caught exception.  The pump
state is returned unchanged, `tr` being the trace accumulated by the
`try` block. -/
def closeExceptBlock (p : PumpState) (tr : List TraceEv) (err : PyErr) :
    PumpState × List TraceEv × Except PyErr Unit :=
  let pe := process_error_async p err
  match pe.2 with
  | .error e2 => (p, tr ++ pe.1, .error e2)
  | .ok _ =>
      match p.partition_context with
      | none => (p, tr ++ pe.1, .error .noneAttribute)
      | some _ => (p, tr ++ pe.1, .error err)

/-- `PartitionPump.close_async(reason)`: sets status `"Closing"`; in a
`try` block runs the subclass `on_closing_async` hook and, if a
processor is installed, logs (reading
`self.partition_context.partition_id`, an `AttributeError` when the
context is `None`) and calls the processor's `close_async` hook.  An
exception from the `try` block is passed to `process_error_async`,
logged (again reading the context's `partition_id`), and re-raised.
Otherwise, when the reason is `"LeaseLost"`, the storage manager's
`release_lease_async(self.partition_context.lease)` is called, an
error from it re-raised.  Only after all of that does status become
`"Closed"`. -/
def close_async (env : PumpEnv) (p : PumpState) (reason : String) :
    PumpState × List TraceEv × Except PyErr Unit :=
  let p := set_pump_status p "Closing"
  let tryRes : List TraceEv × Except PyErr Unit :=
    match env.on_closing_async reason with
    | .error e => ([.onClosingHook reason], .error e)
    | .ok _ =>
        match p.processor with
        | none => ([.onClosingHook reason], .ok ())
        | some proc =>
            match p.partition_context with
            | none => ([.onClosingHook reason], .error .noneAttribute)
            | some _ =>
                ([.onClosingHook reason, .procClose p.partition_context reason],
                  proc.close_async p.partition_context reason)
  match tryRes.2 with
  | .error err => closeExceptBlock p tryRes.1 err
  | .ok _ =>
      if reason = "LeaseLost" then
        match p.partition_context with
        | none => (p, tryRes.1, .error .noneAttribute)
        | some ctx =>
            match env.release_lease_async ctx.lease with
            | .ok _ =>
                (set_pump_status p "Closed", tryRes.1 ++ [.releaseLease ctx.lease],
                  .ok ())
            | .error e => (p, tryRes.1 ++ [.releaseLease ctx.lease], .error e)
      else
        (set_pump_status p "Closed", tryRes.1, .ok ())

/-- The `except` handler of `PartitionPump.process_events_async`:
forwards the caught exception to `process_error_async` and swallows it
(the method then returns normally); a failure of `process_error_async`
itself propagates.  `p` is the pump state at the point the exception
was raised and `tr` the trace accumulated so far. -/
def swallowError (p : PumpState) (tr : List TraceEv) (err : PyErr) :
    PumpState × List TraceEv × Except PyErr Unit :=
  let pe := process_error_async p err
  match pe.2 with
  | .ok _ => (p, tr ++ pe.1, .ok ())
  | .error e2 => (p, tr ++ pe.1, .error e2)

/-- `PartitionPump.process_events_async(events)`: a no-op when the
batch is empty (`if events:`) or when `events[-1]` is `None`.
Otherwise, inside a `try` block, the context cursor is updated from
the last element and the processor's `process_events_async` hook is
called with the context and the full batch; any exception from the
`try` block is passed to `process_error_async` and (when that call
itself returns normally) swallowed.  A `None` context or processor
raises `AttributeError` at the corresponding attribute access, caught
by the same `except`. -/
def process_events_async (p : PumpState) (events : List (Option EventData)) :
    PumpState × List TraceEv × Except PyErr Unit :=
  match events.getLast? with
  | none => (p, [], .ok ())
  | some none => (p, [], .ok ())
  | some (some last) =>
      match p.partition_context with
      | none => swallowError p [] .noneAttribute
      | some ctx =>
          let ctx2 := ctx.set_offset_and_sequence_number last
          let p2 := { p with partition_context := some ctx2 }
          match p2.processor with
          | none => swallowError p2 [.setOffsetAndSeq last] .noneAttribute
          | some proc =>
              match proc.process_events_async (some ctx2) events with
              | .ok _ =>
                  (p2, [.setOffsetAndSeq last, .procProcessEvents (some ctx2) events],
                    .ok ())
              | .error err =>
                  swallowError p2
                    [.setOffsetAndSeq last, .procProcessEvents (some ctx2) events] err

end PartitionPump

/-! Concrete fixtures used to instantiate the theorems below. -/

/-- A processor all four of whose hooks return normally. -/
def okProcessor : EventProcessor where
  open_async := fun _ => .ok ()
  process_events_async := fun _ _ => .ok ()
  process_error_async := fun _ _ => .ok ()
  close_async := fun _ _ => .ok ()

/-- A sample lease for partition `"0"`. -/
def leaseA : Lease := { partition_id := "0", epoch := 1 }

/-- A sample freshly-opened partition context bound to `leaseA`. -/
def ctxA : PartitionContext :=
  { partition_id := "0", lease := leaseA, offset := none, sequence_number := none }

/-- A pump in status `"Opened"` with context `ctxA` and a well-behaved
processor. -/
def openedPump : PumpState :=
  { lease := leaseA
    pump_status := "Opened"
    partition_context := some ctxA
    processor := some okProcessor }

/-- A freshly constructed pump: status `"Uninitialized"`, no context,
no processor. -/
def uninitPump : PumpState :=
  { lease := leaseA
    pump_status := "Uninitialized"
    partition_context := none
    processor := none }

/-- An environment whose hooks and external calls all return
normally. -/
def okEnv : PumpEnv where
  event_processor := okProcessor
  on_open_async := .ok ()
  on_closing_async := fun _ => .ok ()
  release_lease_async := fun _ => .ok ()

/-- An environment whose subclass `on_closing_async` hook raises. -/
def closingRaisesEnv : PumpEnv :=
  { okEnv with on_closing_async := fun _ => .error (.user 1) }

/-- A processor whose `open_async` hook raises and whose
`process_error_async` hook raises as well. -/
def openRaisesProcessor : EventProcessor :=
  { okProcessor with
    open_async := fun _ => .error (.user 1)
    process_error_async := fun _ _ => .error (.user 2) }

/-- An environment instantiating `openRaisesProcessor`. -/
def openRaisesEnv : PumpEnv :=
  { okEnv with event_processor := openRaisesProcessor }

/-- A processor whose `open_async` hook raises while its
`process_error_async` hook returns normally. -/
def openFailsProcessor : EventProcessor :=
  { okProcessor with open_async := fun _ => .error (.user 1) }

/-- An environment instantiating `openFailsProcessor`. -/
def openFailsEnv : PumpEnv :=
  { okEnv with event_processor := openFailsProcessor }

/-- A processor whose `process_events_async` hook raises and whose
`process_error_async` hook raises as well. -/
def processRaisesProcessor : EventProcessor :=
  { okProcessor with
    process_events_async := fun _ _ => .error (.user 1)
    process_error_async := fun _ _ => .error (.user 2) }

/-- An opened pump whose processor is `processRaisesProcessor`. -/
def processRaisesPump : PumpState :=
  { openedPump with processor := some processRaisesProcessor }

/-- A processor whose `process_events_async` hook raises while its
`process_error_async` hook returns normally. -/
def processFailsProcessor : EventProcessor :=
  { okProcessor with process_events_async := fun _ _ => .error (.user 1) }

/-- An opened pump whose processor is `processFailsProcessor`. -/
def processFailsPump : PumpState :=
  { openedPump with processor := some processFailsProcessor }

/-- A sample transport message carrying the three event-hub
annotations. -/
def msgA : Message :=
  { message_annotations :=
      [(PROP_SEQ_NUMBER, .int 7), (PROP_OFFSET, .str "400"),
        (PROP_PARTITION_KEY, .bytes "pk")]
    application_properties := [("custom", .int 3)] }

/-- The wrapped form of `msgA`. -/
def eventA : EventData := EventData.create msgA

/-!  The claims. -/

/-- C1, counterexample: `Offset(12345)` holds the *integer* `12345`,
so `selector()` takes the `isinstance(self.value, int)` branch and
renders the enqueued-time filter, not the claimed
`amqp.annotation.x-opt-offset` filter; the `inclusive` flag does not
change that (no `>=` form is ever produced for an integer value). -/
theorem C1_counterexample :
    Offset.selector { value := .int 12345, inclusive := false } =
      .ok "amqp.annotation.x-opt-enqueued-time > '12345'" ∧
    "amqp.annotation.x-opt-enqueued-time > '12345'" ≠
      "amqp.annotation.x-opt-offset > '12345'" ∧
    Offset.selector { value := .int 12345, inclusive := true } =
      .ok "amqp.annotation.x-opt-enqueued-time > '12345'" ∧
    "amqp.annotation.x-opt-enqueued-time > '12345'" ≠
      "amqp.annotation.x-opt-offset >= '12345'" :=
  ⟨rfl, by decide, rfl, by decide⟩

/-- C1, amended: an integer offset value renders the enqueued-time
filter `amqp.annotation.x-opt-offset`-free, with `>` regardless of
`inclusive`; the `x-opt-offset` filter with the inclusive/exclusive
operator is rendered for *string* offset values, so it is
`Offset("12345")` (a string) whose selector yields
`b"amqp.annotation.x-opt-offset > '12345'"`, and
`Offset("12345", inclusive=True)` that yields the `>=` form. -/
theorem C1_selector_forms (i : Int) (s : String) (inc : Bool) :
    Offset.selector { value := .int i, inclusive := inc } =
      .ok ("amqp.annotation.x-opt-enqueued-time > '" ++ toString i ++ "'") ∧
    Offset.selector { value := .str s, inclusive := inc } =
      .ok ("amqp.annotation.x-opt-offset " ++ (if inc then ">=" else ">") ++
        " '" ++ s ++ "'") ∧
    Offset.selector { value := .str "12345", inclusive := false } =
      .ok "amqp.annotation.x-opt-offset > '12345'" ∧
    Offset.selector { value := .str "12345", inclusive := true } =
      .ok "amqp.annotation.x-opt-offset >= '12345'" := by
  refine ⟨rfl, ?_, rfl, rfl⟩
  cases inc <;> rfl

/-- C9: wrapping a transport message with `EventData.create` and
reading the `sequence_number`, `offset` and `partition_key` properties
returns exactly the values stored in the message's annotations under
`x-opt-sequence-number`, `x-opt-offset` and `x-opt-partition-key`,
unmodified. -/
theorem C9_annotations_round_trip (m : Message) (sn off pk : AnnValue)
    (hs : AnnMap.get m.message_annotations PROP_SEQ_NUMBER = some sn)
    (ho : AnnMap.get m.message_annotations PROP_OFFSET = some off)
    (hp : AnnMap.get m.message_annotations PROP_PARTITION_KEY = some pk) :
    (EventData.create m).sequence_number = some sn ∧
    (EventData.create m).offset = some off ∧
    (EventData.create m).partition_key = some pk :=
  ⟨hs, ho, hp⟩

/-- C9, witness: the round-trip evaluated on the concrete message
`msgA`. -/
theorem C9_annotations_round_trip_witness :
    (EventData.create msgA).sequence_number = some (.int 7) ∧
    (EventData.create msgA).offset = some (.str "400") ∧
    (EventData.create msgA).partition_key = some (.bytes "pk") :=
  C9_annotations_round_trip msgA (.int 7) (.str "400") (.bytes "pk")
    (by decide) (by decide) (by decide)

/-- Claim C7: for every delivered message — whether or not a callback
was supplied to `receive()` — `Receiver.on_message` stores the event's
offset annotation into the receiver's `offset` field, increments
`delivered`, and returns the wrapped `EventData`; additionally, when a
callback was supplied it is invoked exactly once with the wrapped
`EventData` (and not at all otherwise), all before the wrapped event
is handed back to be yielded by the `receive` generator. -/
theorem C7_on_message_updates (r : ReceiverState) (m : Message) :
    (Receiver.on_message r m).1.offset = AnnMap.get m.message_annotations PROP_OFFSET ∧
    (Receiver.on_message r m).2.1 = EventData.create m ∧
    (Receiver.on_message r m).1.delivered = r.delivered + 1 ∧
    (r.has_callback = true →
      (Receiver.on_message r m).2.2 = [EventData.create m]) ∧
    (r.has_callback = false → (Receiver.on_message r m).2.2 = []) := by
  unfold Receiver.on_message
  exact ⟨rfl, rfl, rfl, fun h => by simp [h], fun h => by simp [h]⟩

/-- Claim C7, witness: `on_message` on a fresh receiver and the
concrete message `msgA`, with and without a callback installed. -/
theorem C7_on_message_updates_witness :
    (Receiver.on_message { offset := none, delivered := 0, has_callback := true } msgA).1.offset =
      AnnMap.get msgA.message_annotations PROP_OFFSET ∧
    (Receiver.on_message { offset := none, delivered := 0, has_callback := false } msgA).1.offset =
      AnnMap.get msgA.message_annotations PROP_OFFSET ∧
    (Receiver.on_message { offset := none, delivered := 0, has_callback := true } msgA).2.1 =
      EventData.create msgA ∧
    (Receiver.on_message { offset := none, delivered := 0, has_callback := true } msgA).1.delivered =
      0 + 1 ∧
    (Receiver.on_message { offset := none, delivered := 0, has_callback := true } msgA).2.2 =
      [EventData.create msgA] ∧
    (Receiver.on_message { offset := none, delivered := 0, has_callback := false } msgA).2.2 =
      [] :=
  ⟨(C7_on_message_updates { offset := none, delivered := 0, has_callback := true } msgA).1,
    (C7_on_message_updates { offset := none, delivered := 0, has_callback := false } msgA).1,
    (C7_on_message_updates { offset := none, delivered := 0, has_callback := true } msgA).2.1,
    (C7_on_message_updates { offset := none, delivered := 0, has_callback := true } msgA).2.2.1,
    (C7_on_message_updates { offset := none, delivered := 0, has_callback := true } msgA).2.2.2.1
      rfl,
    (C7_on_message_updates { offset := none, delivered := 0, has_callback := false } msgA).2.2.2.2
      rfl⟩

/-- C8: `Sender.send` returns normally exactly when the delivery
outcome recorded by the completion hook is `Ok`; on any other outcome
it raises the object built by `Sender._error`, an `EventHubError`
carrying the recorded `(outcome, condition)` pair. -/
theorem C8_send_outcome (s : SenderState) (outcome : MessageSendResult)
    (condition : Option String) :
    ((Sender.send s outcome condition).2 = .ok () ↔ outcome = .Ok) ∧
    (outcome ≠ .Ok →
      (Sender.send s outcome condition).2 =
        .error (some { outcome := some outcome, condition := condition })) := by
  unfold Sender.send Sender.on_outcome Sender.error
  cases outcome <;> simp

/-- C8, witness: a send whose recorded outcome is `Error` raises the
error carrying that outcome and its condition, and a send whose
recorded outcome is `Ok` returns normally. -/
theorem C8_send_outcome_witness :
    (Sender.send { outcome := none, condition := none } .Error (some "amqp:not-found")).2 =
      .error (some { outcome := some .Error, condition := some "amqp:not-found" }) ∧
    (Sender.send { outcome := none, condition := none } .Ok none).2 = .ok () :=
  ⟨(C8_send_outcome { outcome := none, condition := none } .Error
      (some "amqp:not-found")).2 (by decide),
    (C8_send_outcome { outcome := none, condition := none } .Ok none).1.mpr rfl⟩

/-- With no processor installed, `close_async` takes the
`if self.processor:` false branch and never invokes a processor
`close_async` hook, whatever else happens. -/
theorem close_async_no_procClose_of_no_processor (env : PumpEnv) (p : PumpState)
    (reason : String) (hp : p.processor = none) (c : Option PartitionContext)
    (rsn : String) :
    TraceEv.procClose c rsn ∉ (PartitionPump.close_async env p reason).2.1 := by
  unfold PartitionPump.close_async PartitionPump.closeExceptBlock
    PartitionPump.process_error_async PartitionPump.set_pump_status
  cases h1 : env.on_closing_async reason <;>
    cases hc : p.partition_context <;>
      (try simp_all) <;>
        (repeat' split) <;> simp_all

/-- With no processor installed, `process_events_async` never invokes a
processor `process_events_async` hook: the attribute access
`self.processor.process_events_async` raises before any call can be
made. -/
theorem process_events_no_hook_of_no_processor (p : PumpState)
    (events : List (Option EventData)) (hp : p.processor = none)
    (c : Option PartitionContext) (evs : List (Option EventData)) :
    TraceEv.procProcessEvents c evs ∉
      (PartitionPump.process_events_async p events).2.1 := by
  unfold PartitionPump.process_events_async PartitionPump.swallowError
    PartitionPump.process_error_async
  cases hl : events.getLast? with
  | none => simp
  | some lastOpt =>
    cases lastOpt <;> cases hc : p.partition_context <;> simp_all

/-- For any reason other than `"LeaseLost"`, `close_async` makes no
lease-release attempt at all, on any pump state and whatever the hooks
do. -/
theorem close_async_no_release_of_other_reason (env : PumpEnv) (p : PumpState)
    (reason : String) (hr : reason ≠ "LeaseLost") (l : Lease) :
    TraceEv.releaseLease l ∉ (PartitionPump.close_async env p reason).2.1 := by
  unfold PartitionPump.close_async PartitionPump.closeExceptBlock
    PartitionPump.process_error_async PartitionPump.set_pump_status
  cases h1 : env.on_closing_async reason <;>
    cases hp : p.processor <;>
      cases hc : p.partition_context <;>
        (try simp_all) <;>
          (repeat' split) <;> simp_all

/-- Claim C2, counterexample: on an Opened pump whose subclass
`on_closing_async` hook raises, `close_async("Shutdown")` propagates
the hook's exception and terminates with `pump_status = "Closing"`,
not `"Closed"` — the `raise err` in the `except` block runs before
`set_pump_status("Closed")` is ever reached. -/
theorem C2_counterexample :
    (PartitionPump.close_async closingRaisesEnv openedPump "Shutdown").2.2 =
      .error (.user 1) ∧
    (PartitionPump.close_async closingRaisesEnv openedPump "Shutdown").1.pump_status =
      "Closing" ∧
    "Closing" ≠ "Closed" :=
  ⟨rfl, rfl, by decide⟩

/-- Claim C2, amended: `close_async` terminates with
`pump_status = "Closed"` exactly when it returns normally; when any
hook (the subclass closing hook, the processor's close hook, the error
hook, or the lease release) raises, the exception propagates and the
status stays `"Closing"`. -/
theorem C2_close_terminal_status (env : PumpEnv) (p : PumpState) (reason : String) :
    ((PartitionPump.close_async env p reason).2.2 = .ok () →
      (PartitionPump.close_async env p reason).1.pump_status = "Closed") ∧
    ((PartitionPump.close_async env p reason).2.2 ≠ .ok () →
      (PartitionPump.close_async env p reason).1.pump_status = "Closing") := by
  unfold PartitionPump.close_async PartitionPump.closeExceptBlock
    PartitionPump.process_error_async PartitionPump.set_pump_status
  cases h1 : env.on_closing_async reason <;>
    cases hp : p.processor <;>
      cases hc : p.partition_context <;>
        (try simp_all) <;>
          (repeat' split) <;> simp_all

/-- Claim C2, witness: a clean close of an Opened pump ends `"Closed"`;
a close whose closing hook raises ends `"Closing"`. -/
theorem C2_close_terminal_status_witness :
    (PartitionPump.close_async okEnv openedPump "Shutdown").1.pump_status =
      "Closed" ∧
    (PartitionPump.close_async closingRaisesEnv openedPump "Shutdown").1.pump_status =
      "Closing" :=
  ⟨(C2_close_terminal_status okEnv openedPump "Shutdown").1 rfl,
    (C2_close_terminal_status closingRaisesEnv openedPump "Shutdown").2
      (fun h => Except.noConfusion h)⟩

/-- Claim C5, counterexample: `close_async("LeaseLost")` on an Opened
pump whose subclass closing hook raises makes *no* lease-release
attempt — the re-raise in the `except` block skips the
`if reason == "LeaseLost"` body — contradicting "every call … makes
exactly one call to release_lease_async". -/
theorem C5_counterexample :
    (PartitionPump.close_async closingRaisesEnv openedPump "LeaseLost").2.1 =
      [.onClosingHook "LeaseLost", .procError (.user 1)] ∧
    TraceEv.releaseLease leaseA ∉
      (PartitionPump.close_async closingRaisesEnv openedPump "LeaseLost").2.1 ∧
    (PartitionPump.close_async closingRaisesEnv openedPump "LeaseLost").2.2 =
      .error (.user 1) :=
  ⟨rfl, by decide, rfl⟩

/-- Claim C5, amended: when the closing hooks complete without raising,
`close_async("LeaseLost")` on an Opened pump makes exactly one call to
the storage manager's `release_lease_async` with the context's lease
(whether or not that call itself raises), and `close_async` with any
other reason never makes a lease-release attempt. -/
theorem C5_lease_release (env : PumpEnv) (p : PumpState) (ctx : PartitionContext)
    (proc : EventProcessor) (reason : String)
    (hctx : p.partition_context = some ctx) (hproc : p.processor = some proc)
    (h1 : env.on_closing_async "LeaseLost" = .ok ())
    (h2 : proc.close_async (some ctx) "LeaseLost" = .ok ()) :
    (PartitionPump.close_async env p "LeaseLost").2.1 =
      [.onClosingHook "LeaseLost", .procClose (some ctx) "LeaseLost",
        .releaseLease ctx.lease] ∧
    (PartitionPump.close_async env p "LeaseLost").2.1.count
      (.releaseLease ctx.lease) = 1 ∧
    (reason ≠ "LeaseLost" →
      ∀ l, TraceEv.releaseLease l ∉ (PartitionPump.close_async env p reason).2.1) := by
  have key : (PartitionPump.close_async env p "LeaseLost").2.1 =
      [.onClosingHook "LeaseLost", .procClose (some ctx) "LeaseLost",
        .releaseLease ctx.lease] := by
    unfold PartitionPump.close_async PartitionPump.closeExceptBlock
      PartitionPump.process_error_async PartitionPump.set_pump_status
    rw [h1]
    simp only [hproc, hctx, h2]
    cases h3 : env.release_lease_async ctx.lease <;> simp
  refine ⟨key, ?_, fun hr l => close_async_no_release_of_other_reason env p reason hr l⟩
  rw [key]
  simp [List.count_cons]

/-- Claim C5, witness: a clean `close_async("LeaseLost")` on the
concrete Opened pump releases the lease exactly once, and a clean
`close_async("Shutdown")` releases nothing. -/
theorem C5_lease_release_witness :
    (PartitionPump.close_async okEnv openedPump "LeaseLost").2.1 =
      [.onClosingHook "LeaseLost", .procClose (some ctxA) "LeaseLost",
        .releaseLease ctxA.lease] ∧
    (PartitionPump.close_async okEnv openedPump "LeaseLost").2.1.count
      (.releaseLease ctxA.lease) = 1 ∧
    TraceEv.releaseLease leaseA ∉
      (PartitionPump.close_async okEnv openedPump "Shutdown").2.1 :=
  ⟨(C5_lease_release okEnv openedPump ctxA okProcessor "Shutdown" rfl rfl rfl rfl).1,
    (C5_lease_release okEnv openedPump ctxA okProcessor "Shutdown" rfl rfl rfl rfl).2.1,
    (C5_lease_release okEnv openedPump ctxA okProcessor "Shutdown" rfl rfl rfl rfl).2.2
      (by decide) leaseA⟩

/-- Claim C4, counterexample: when the processor's `open_async` hook
raises and its `process_error_async` hook raises too, `open_async`
propagates the second error before `self.processor = None` and
`set_pump_status("OpenFailed")` run, so the pump terminates in status
`"Opening"`, not the claimed `"OpenFailed"`. -/
theorem C4_counterexample :
    (PartitionPump.open_async openRaisesEnv uninitPump).1.pump_status = "Opening" ∧
    "Opening" ≠ "OpenFailed" ∧
    (PartitionPump.open_async openRaisesEnv uninitPump).2.2 = .error (.user 2) :=
  ⟨rfl, by decide, rfl⟩

/-- Claim C4, amended: when the processor's `open_async` hook raises
and the error is forwarded to the processor's `process_error_async`
hook which returns normally, the pump ends in status `"OpenFailed"`
with the processor reference discarded, the subclass open hook never
runs, `open_async` returns normally, and on the resulting pump no
subsequent `close_async` ever invokes the processor's close hook and
no subsequent `process_events_async` ever invokes the processor's
process-events hook. -/
theorem C4_open_failure_terminal (env : PumpEnv) (p : PumpState) (err : PyErr)
    (hopen : env.event_processor.open_async
      (some (PartitionPump.freshContext p.lease)) = .error err)
    (herr : env.event_processor.process_error_async
      (some (PartitionPump.freshContext p.lease)) err = .ok ()) :
    (PartitionPump.open_async env p).1.pump_status = "OpenFailed" ∧
    (PartitionPump.open_async env p).1.processor = none ∧
    (PartitionPump.open_async env p).2.1 =
      [.procOpen (some (PartitionPump.freshContext p.lease)), .procError err] ∧
    (PartitionPump.open_async env p).2.2 = .ok () ∧
    (∀ env2 reason c rsn,
      TraceEv.procClose c rsn ∉
        (PartitionPump.close_async env2 (PartitionPump.open_async env p).1 reason).2.1) ∧
    (∀ events c evs,
      TraceEv.procProcessEvents c evs ∉
        (PartitionPump.process_events_async (PartitionPump.open_async env p).1
          events).2.1) := by
  have hkey : PartitionPump.open_async env p =
      ({ lease := p.lease, pump_status := "OpenFailed", partition_context :=
          some (PartitionPump.freshContext p.lease), processor := none },
        [.procOpen (some (PartitionPump.freshContext p.lease)), .procError err],
        .ok ()) := by
    unfold PartitionPump.open_async PartitionPump.process_error_async
      PartitionPump.set_pump_status
    simp only [hopen, herr]
  refine ⟨by rw [hkey], by rw [hkey], by rw [hkey], by rw [hkey],
    fun env2 reason c rsn => ?_, fun events c evs => ?_⟩
  · exact close_async_no_procClose_of_no_processor env2 _ reason (by rw [hkey]) c rsn
  · exact process_events_no_hook_of_no_processor _ events (by rw [hkey]) c evs

/-- Claim C4, witness: a pump whose processor open hook raises (with a
well-behaved error hook) ends `"OpenFailed"` with no processor, and
subsequent concrete `close_async` / `process_events_async` calls on it
invoke neither the close hook nor the process-events hook. -/
theorem C4_open_failure_terminal_witness :
    (PartitionPump.open_async openFailsEnv uninitPump).1.pump_status = "OpenFailed" ∧
    (PartitionPump.open_async openFailsEnv uninitPump).1.processor = none ∧
    TraceEv.procClose (some ctxA) "Shutdown" ∉
      (PartitionPump.close_async okEnv
        (PartitionPump.open_async openFailsEnv uninitPump).1 "Shutdown").2.1 ∧
    TraceEv.procProcessEvents (some ctxA) [some eventA] ∉
      (PartitionPump.process_events_async
        (PartitionPump.open_async openFailsEnv uninitPump).1 [some eventA]).2.1 := by
  have h := C4_open_failure_terminal openFailsEnv uninitPump (.user 1) rfl rfl
  exact ⟨h.1, h.2.1, h.2.2.2.2.1 okEnv "Shutdown" (some ctxA) "Shutdown",
    h.2.2.2.2.2 [some eventA] (some ctxA) [some eventA]⟩

/-- Claim C3: on an Opened pump, for a non-empty batch whose last
element is non-null, the context cursor is set from the last element
(the context's offset becoming exactly the last element's offset
annotation, its sequence number the sequence-number annotation)
strictly before the processor's `process_events_async` hook is invoked
with the updated context and the full batch: the cursor update and the
hook invocation are the first two trace events, in that order. -/
theorem C3_cursor_updated_before_processor (p : PumpState)
    (events : List (Option EventData)) (last : EventData) (proc : EventProcessor)
    (ctx : PartitionContext)
    (_hst : p.pump_status = "Opened")
    (hproc : p.processor = some proc)
    (hctx : p.partition_context = some ctx)
    (hlast : events.getLast? = some (some last)) :
    ((PartitionPump.process_events_async p events).2.1).take 2 =
      [.setOffsetAndSeq last,
        .procProcessEvents (some (ctx.set_offset_and_sequence_number last)) events] ∧
    (ctx.set_offset_and_sequence_number last).offset = last.offset ∧
    (ctx.set_offset_and_sequence_number last).sequence_number = last.sequence_number ∧
    (PartitionPump.process_events_async p events).1.partition_context =
      some (ctx.set_offset_and_sequence_number last) := by
  unfold PartitionPump.process_events_async PartitionPump.swallowError
    PartitionPump.process_error_async
  rw [hlast]
  simp only [hctx, hproc]
  refine ⟨?_, rfl, rfl, ?_⟩ <;>
    cases h : proc.process_events_async
      (some (ctx.set_offset_and_sequence_number last)) events <;>
      (repeat' split) <;> simp_all

/-- Claim C3, witness: the concrete Opened pump processing the
one-element batch `[eventA]`. -/
theorem C3_cursor_updated_before_processor_witness :
    ((PartitionPump.process_events_async openedPump [some eventA]).2.1).take 2 =
      [.setOffsetAndSeq eventA,
        .procProcessEvents (some (ctxA.set_offset_and_sequence_number eventA))
          [some eventA]] ∧
    (ctxA.set_offset_and_sequence_number eventA).offset = eventA.offset ∧
    (ctxA.set_offset_and_sequence_number eventA).sequence_number =
      eventA.sequence_number ∧
    (PartitionPump.process_events_async openedPump [some eventA]).1.partition_context =
      some (ctxA.set_offset_and_sequence_number eventA) :=
  C3_cursor_updated_before_processor openedPump [some eventA] eventA okProcessor ctxA
    rfl rfl rfl rfl

/-- Claim C6, counterexample: when the processor's
`process_events_async` hook raises and its `process_error_async` hook
raises as well, `process_events_async` does *not* return normally: the
error hook's exception propagates to the caller. -/
theorem C6_counterexample :
    (PartitionPump.process_events_async processRaisesPump [some eventA]).2.2 =
      .error (.user 2) ∧
    (PartitionPump.process_events_async processRaisesPump [some eventA]).2.2 ≠
      .ok () :=
  ⟨rfl, fun h => Except.noConfusion h⟩

/-- Claim C6, amended: an exception raised by the processor's
`process_events_async` hook is forwarded to the processor's
`process_error_async` hook and — provided that hook returns normally —
swallowed: `process_events_async` returns normally, its trace shows the
hook invocation followed by the error forwarding, and the pump keeps
its processor and status, so it can process subsequent batches. -/
theorem C6_processing_error_swallowed (p : PumpState)
    (events : List (Option EventData)) (last : EventData) (proc : EventProcessor)
    (ctx : PartitionContext) (err : PyErr)
    (hproc : p.processor = some proc)
    (hctx : p.partition_context = some ctx)
    (hlast : events.getLast? = some (some last))
    (hraise : proc.process_events_async
      (some (ctx.set_offset_and_sequence_number last)) events = .error err)
    (herr : proc.process_error_async
      (some (ctx.set_offset_and_sequence_number last)) err = .ok ()) :
    (PartitionPump.process_events_async p events).2.2 = .ok () ∧
    (PartitionPump.process_events_async p events).2.1 =
      [.setOffsetAndSeq last,
        .procProcessEvents (some (ctx.set_offset_and_sequence_number last)) events,
        .procError err] ∧
    (PartitionPump.process_events_async p events).1.processor = p.processor ∧
    (PartitionPump.process_events_async p events).1.pump_status = p.pump_status := by
  unfold PartitionPump.process_events_async PartitionPump.swallowError
    PartitionPump.process_error_async
  rw [hlast]
  simp only [hctx, hproc, hraise, herr]
  simp

/-- Claim C6, witness: the concrete Opened pump whose process-events
hook raises `user 1` while the error hook is well-behaved. -/
theorem C6_processing_error_swallowed_witness :
    (PartitionPump.process_events_async processFailsPump [some eventA]).2.2 =
      .ok () ∧
    (PartitionPump.process_events_async processFailsPump [some eventA]).2.1 =
      [.setOffsetAndSeq eventA,
        .procProcessEvents (some (ctxA.set_offset_and_sequence_number eventA))
          [some eventA],
        .procError (.user 1)] ∧
    (PartitionPump.process_events_async processFailsPump [some eventA]).1.processor =
      processFailsPump.processor ∧
    (PartitionPump.process_events_async processFailsPump [some eventA]).1.pump_status =
      processFailsPump.pump_status :=
  C6_processing_error_swallowed processFailsPump [some eventA] eventA
    processFailsProcessor ctxA (.user 1) rfl rfl rfl rfl rfl

/-- Claim C10: a non-empty batch whose last element is `None` makes
`process_events_async` a complete no-op: the pump state (context
cursor included) is returned unchanged, no processor hook of any kind
is invoked (the trace is empty), and the call returns normally. -/
theorem C10_null_last_noop (p : PumpState) (events : List (Option EventData))
    (_hne : events ≠ []) (hlast : events.getLast? = some none) :
    PartitionPump.process_events_async p events = (p, [], .ok ()) := by
  unfold PartitionPump.process_events_async
  rw [hlast]

/-- Claim C10, witness: the concrete Opened pump fed the batch
`[eventA, None]`. -/
theorem C10_null_last_noop_witness :
    PartitionPump.process_events_async openedPump [some eventA, none] =
      (openedPump, [], .ok ()) :=
  C10_null_last_noop openedPump [some eventA, none] (by simp) rfl

end EventHubs
